import Mathlib

/-!
Verification of the async-sqlite actor and pool library.

The development shallowly embeds `src/client.rs`, `src/pool.rs` and
`src/error.rs`. The external collaborator `rusqlite::Connection` is kept
abstract: a connection is a value of an arbitrary type `Conn`, an operation on
it is a pure function `Conn → Conn × Resp`, and `rusqlite::Error` values are
abstracted by their numeric result code. The single-consumer command queue of
a worker thread is embedded as the list of commands in the order crossbeam
delivers them (FIFO send order), so the worker loop becomes a recursive
function over that list. Rust panics (index out of bounds, remainder by zero)
are embedded as `Option.none` results.
-/

namespace AsyncSqlite

/-- Mirrors `Error` in `src/error.rs`: `Closed`, `PragmaUpdate` with the pragma
name, the expected value and the value the database reported, and `Rusqlite`
carrying an underlying rusqlite error (abstracted by its numeric code). -/
inductive Error where
  | Closed : Error
  | PragmaUpdate (name : String) (exp : String) (got : String) : Error
  | Rusqlite (code : Nat) : Error
deriving DecidableEq

/-- Mirrors `impl<T> From<crossbeam_channel::SendError<T>> for Error` in
`src/error.rs`: a failed send on a disconnected command queue is mapped to
`Error::Closed`, discarding the unsent value. -/
def errorFromSendError : Error := Error.Closed

/-- Mirrors `impl From<futures_channel::oneshot::Canceled> for Error` in
`src/error.rs`: a reply channel closed without a reply maps to
`Error::Closed`. -/
def errorFromCanceled : Error := Error.Closed

/-- Mirrors `enum Command` in `src/client.rs`. `Func` carries the boxed
closure; in the source the closure also captures the oneshot sender on which
it delivers its response, embedded here as a numeric channel id `chan` paired
with the pure state transformer `f`. `Shutdown` carries the closure that
delivers the close outcome, embedded as its channel id. -/
inductive Command (Conn Resp : Type) where
  | Func (chan : Nat) (f : Conn → Conn × Resp) : Command Conn Resp
  | Shutdown (chan : Nat) : Command Conn Resp

/-- Equality of `Except` values is decidable when it is on both components. -/
instance {e a : Type} [DecidableEq e] [DecidableEq a] : DecidableEq (Except e a) := fun x y =>
  match x, y with
  | Except.ok v, Except.ok w =>
      if h : v = w then isTrue (by rw [h]) else isFalse (fun hc => h (Except.ok.inj hc))
  | Except.ok _, Except.error _ => isFalse (fun hc => Except.noConfusion hc)
  | Except.error _, Except.ok _ => isFalse (fun hc => Except.noConfusion hc)
  | Except.error v, Except.error w =>
      if h : v = w then isTrue (by rw [h]) else isFalse (fun hc => h (Except.error.inj hc))

/-- A response delivered on a oneshot channel by the worker thread: either the
result of a `Func` command or the outcome of a `Shutdown` command. -/
inductive Reply (Resp : Type) where
  | funcReply (chan : Nat) (r : Resp) : Reply Resp
  | shutdownReply (chan : Nat) (r : Except Error Unit) : Reply Resp
deriving DecidableEq

/-- How the worker loop of `Client::open` ends: `disconnected conn` when
`conn_rx.recv()` fails because all senders are gone (the loop falls off the
end holding the connection), `closed` when a `Shutdown` command closed the
connection successfully and the thread returned. -/
inductive ExitKind (Conn : Type) where
  | disconnected (final : Conn) : ExitKind Conn
  | closed : ExitKind Conn
deriving DecidableEq

/-- Mirrors the worker loop `while let Ok(cmd) = conn_rx.recv()` in
`Client::open` (`src/client.rs` lines 154-168). `closeFn` embeds
`rusqlite::Connection::close`, whose Rust type
`Result<(), (Connection, Error)>` returns the connection itself on failure.
The queue is the list of commands in delivery order; the loop processes them
one at a time, threading the exclusively owned connection. On `Func` the
closure runs with the connection and its response is sent on its channel. On
`Shutdown`, a successful close replies `Ok` and the thread returns, dropping
the rest of the queue; a failed close restores the returned connection,
replies with the error, and the loop continues. -/
def runLoop {Conn Resp : Type} (closeFn : Conn → Except (Conn × Error) Unit) :
    Conn → List (Command Conn Resp) → List (Reply Resp) × ExitKind Conn
  | conn, [] => ([], ExitKind.disconnected conn)
  | conn, Command.Func ch f :: rest =>
      let o := f conn
      let r := runLoop closeFn o.1 rest
      (Reply.funcReply ch o.2 :: r.1, r.2)
  | conn, Command.Shutdown ch :: rest =>
      match closeFn conn with
      | Except.ok _ => ([Reply.shutdownReply ch (Except.ok ())], ExitKind.closed)
      | Except.error ce =>
          let r := runLoop closeFn ce.1 rest
          (Reply.shutdownReply ch (Except.error ce.2) :: r.1, r.2)

/-- The connection state after a list of submitted operations has run in
order, each receiving the connection left by its predecessor. -/
def connAfter {Conn Resp : Type} (conn : Conn)
    (subs : List (Nat × (Conn → Conn × Resp))) : Conn :=
  subs.foldl (fun c p => (p.2 c).1) conn

/-- A queue consisting only of `Func` commands, one per submission: the shape
produced by `Client::conn` and `Client::conn_mut` submissions. -/
def funcQueue {Conn Resp : Type} (subs : List (Nat × (Conn → Conn × Resp))) :
    List (Command Conn Resp) :=
  subs.map fun p => Command.Func p.1 p.2

/-- The observable state of one worker thread as seen through a `Client`
handle: `alive = some conn` while the worker loop is running and owns the
connection, `alive = none` after the thread returned (command queue
disconnected, sends fail). -/
structure ActorState (Conn : Type) where
  alive : Option Conn
deriving DecidableEq

/-- Mirrors `Client::conn` / `Client::conn_mut` (`src/client.rs` lines
197-220) for one submission against the current actor state. If the worker
has terminated, `conn_tx.send` fails with `SendError` which the `?` operator
maps through `From<SendError<T>>` to `Error::Closed`. Otherwise the worker
runs the closure with exclusive access to the connection and the result comes
back on the oneshot channel; an `Err` from the closure (a rusqlite error
code) is mapped through `From<rusqlite::Error>` to `Error::Rusqlite`. -/
def clientConn {Conn T : Type} (f : Conn → Conn × Except Nat T)
    (s : ActorState Conn) : ActorState Conn × Except Error T :=
  match s.alive with
  | none => (s, Except.error errorFromSendError)
  | some c =>
      let o := f c
      (ActorState.mk (some o.1),
       match o.2 with
       | Except.ok t => Except.ok t
       | Except.error code => Except.error (Error.Rusqlite code))

/-- Mirrors `Client::close` / `Client::close_blocking` (`src/client.rs` lines
264-273 and 308-316) combined with the `Shutdown` arm of the worker loop. If
the worker has already terminated, the send of `Command::Shutdown` fails and
`close` returns `Ok(())` directly. Otherwise the worker attempts
`conn.close()`: on success it replies `Ok` and terminates; on failure it
keeps the connection returned by the failed close and replies with the
error. -/
def clientClose {Conn : Type} (closeFn : Conn → Except (Conn × Error) Unit)
    (s : ActorState Conn) : ActorState Conn × Except Error Unit :=
  match s.alive with
  | none => (s, Except.ok ())
  | some c =>
      match closeFn c with
      | Except.ok _ => (ActorState.mk none, Except.ok ())
      | Except.error ce => (ActorState.mk (some ce.1), Except.error ce.2)

/-- Mirrors `JournalMode` in `src/client.rs`. -/
inductive JournalMode where
  | Delete : JournalMode
  | Truncate : JournalMode
  | Persist : JournalMode
  | Memory : JournalMode
  | Wal : JournalMode
  | Off : JournalMode
deriving DecidableEq

/-- Mirrors `JournalMode::as_str` (`src/client.rs` lines 332-344). -/
def JournalMode.asStr : JournalMode → String
  | JournalMode.Delete => "DELETE"
  | JournalMode.Truncate => "TRUNCATE"
  | JournalMode.Persist => "PERSIST"
  | JournalMode.Memory => "MEMORY"
  | JournalMode.Wal => "WAL"
  | JournalMode.Off => "OFF"

/-- Mirrors `u8::to_ascii_lowercase` applied to one character: characters in
the ASCII range `A`-`Z` are shifted by 32, all others are unchanged. -/
def toAsciiLowercase (c : Char) : Char :=
  if 65 ≤ c.toNat ∧ c.toNat ≤ 90 then Char.ofNat (c.toNat + 32) else c

/-- Mirrors `str::eq_ignore_ascii_case`: the strings are equal after mapping
every character through ASCII lowercasing (in particular the lengths must
match). -/
def eqIgnoreAsciiCase (a b : String) : Bool :=
  a.data.map toAsciiLowercase == b.data.map toAsciiLowercase

/-- Mirrors `Client::create_conn` (`src/client.rs` lines 172-194). The
external calls are embedded as inputs: `openRes` is the outcome of
`Connection::open_with_flags` (or the vfs variant) and `pragmaRes` is the
value the database reports from `pragma_update_and_check` for
`journal_mode`, fallible as in the source. When a journal mode is configured
the reported value must equal the requested string up to ASCII case,
otherwise `Error::PragmaUpdate` is returned carrying the expected and actual
values and no connection is produced. -/
def createConn {Conn : Type} (openRes : Except Error Conn)
    (pragmaRes : Except Error String) (journalMode : Option JournalMode) :
    Except Error Conn :=
  match openRes with
  | Except.error e => Except.error e
  | Except.ok conn =>
      match journalMode with
      | none => Except.ok conn
      | some m =>
          match pragmaRes with
          | Except.error e => Except.error e
          | Except.ok out =>
              if eqIgnoreAsciiCase out m.asStr then Except.ok conn
              else Except.error (Error.PragmaUpdate "journal_mode" m.asStr out)

/-- Mirrors the spawned thread body of `Client::open` (`src/client.rs` lines
140-169) observed from the opening caller: `factory` is the result of
`Client::create_conn`. On factory failure the open callback is invoked once
with the error and the thread returns before entering the loop: no handle is
exposed, no reply is produced and no exit state of the loop exists. On
success the callback receives the handle (embedded as `Except.ok ()`) and the
worker loop runs over the queued commands. -/
def spawnOpen {Conn Resp : Type} (factory : Except Error Conn)
    (closeFn : Conn → Except (Conn × Error) Unit)
    (queue : List (Command Conn Resp)) :
    Except Error Unit × List (Reply Resp) × Option (ExitKind Conn) :=
  match factory with
  | Except.error e => (Except.error e, [], none)
  | Except.ok conn =>
      let r := runLoop closeFn conn queue
      (Except.ok (), r.1, some r.2)

/-- Mirrors `State` in `src/pool.rs`: the fixed list of clients (identified
by numeric ids) and the `AtomicU64` counter. The counter value is kept below
`2 ^ 64` as the hardware register is. -/
structure PoolState where
  clients : List Nat
  counter : Nat
deriving DecidableEq

/-- Mirrors `Pool::get` (`src/pool.rs` lines 242-245):
`counter.fetch_add(1, Relaxed)` returns the old 64-bit value and stores its
wrapping successor; the client at index `n as usize % clients.len()` is then
returned by shared reference (usize is modelled as 64 bits wide). A `none`
result embeds the Rust panic that `%` and indexing raise when the client list
is empty (remainder by zero). -/
def poolGet (s : PoolState) : PoolState × Option Nat :=
  let n := s.counter % 2 ^ 64
  (PoolState.mk s.clients ((n + 1) % 2 ^ 64),
   if s.clients.length = 0 then none
   else s.clients.get? (n % s.clients.length))

/-- A pool as produced by `PoolBuilder::open` or `open_blocking`: the given
clients and a counter starting at 0. -/
def freshPool (cs : List Nat) : PoolState :=
  PoolState.mk cs 0

/-- The pool state after `i` calls to `Pool::get`. -/
def poolGetN (s : PoolState) : Nat → PoolState
  | 0 => s
  | i + 1 => (poolGet (poolGetN s i)).1

/-- The client returned by the `i`-th call to `Pool::get` (counting from 0). -/
def nthGet (s : PoolState) (i : Nat) : Option Nat :=
  (poolGet (poolGetN s i)).2

/-- Mirrors `PoolBuilder::get_num_conns` (`src/pool.rs` lines 154-160):
the configured `num_conns` if set, else `available_parallelism()` (a
`NonZeroUsize` on success, embedded as `some n`), else 1. -/
def getNumConns (numConns : Option Nat) (availPar : Option Nat) : Nat :=
  match numConns with
  | some n => n
  | none =>
      match availPar with
      | some n => n
      | none => 1

/-- Mirrors `collect::<Result<(), Error>>()` over an iterator of results, as
used at the end of `Pool::close` (`src/pool.rs` lines 205-208): `Ok` when
every element is `Ok`, otherwise the first `Err` element. -/
def collectResults : List (Except Error Unit) → Except Error Unit
  | [] => Except.ok ()
  | Except.ok _ :: rest => collectResults rest
  | Except.error e :: _ => Except.error e

/-- Mirrors `Pool::close` (`src/pool.rs` lines 199-209): `join_all` runs
`Client::close` on every client of the pool (each close is attempted
regardless of the others), then the results are collected into a single
`Result<(), Error>`. -/
def poolClose {Conn : Type} (closeFn : Conn → Except (Conn × Error) Unit)
    (actors : List (ActorState Conn)) :
    List (ActorState Conn) × Except Error Unit :=
  ((actors.map (clientClose closeFn)).map Prod.fst,
   collectResults ((actors.map (clientClose closeFn)).map Prod.snd))

/-- Follows the words of the spec (section 4.3, step 2) rather than the
source, for comparison with `poolGet`: acquisition pops an idle handle when
one exists and returns it; when no idle handle exists (pool saturated) the
caller gets no handle now and is enqueued as a waiter, embedded as a `none`
result with the state unchanged. -/
def specPopAcquire (s : PoolState) : PoolState × Option Nat :=
  match s.clients with
  | [] => (s, none)
  | c :: rest => (PoolState.mk rest s.counter, some c)

/-- Fixture operation used to evaluate theorems on concrete inputs. -/
def wF1 : Nat → Nat × Nat := fun c => (c + 1, c * 2)

/-- Fixture operation used to evaluate theorems on concrete inputs. -/
def wF2 : Nat → Nat × Nat := fun c => (c * 3, c + 5)

/-- Fixture list of submissions: two operations on channels 1 and 2. -/
def wSubs : List (Nat × (Nat → Nat × Nat)) := [(1, wF1), (2, wF2)]

/-- Fixture close behaviour: closing always succeeds. -/
def wCloseOk : Nat → Except (Nat × Error) Unit := fun _ => Except.ok ()

/-- Fixture close behaviour: closing always fails (e.g. SQLITE_BUSY, code 5)
and hands the connection back unchanged, as `rusqlite::Connection::close`
does. -/
def wCloseBusy : Nat → Except (Nat × Error) Unit :=
  fun c => Except.error (c, Error.Rusqlite 5)

/-- Fixture close behaviour whose error is distinct per connection. -/
def wFailClose : Nat → Except (Nat × Error) Unit :=
  fun c => Except.error (c, Error.Rusqlite c)

/-- Fixture client operation: leaves the connection unchanged, returns 42. -/
def wEcho : Nat → Nat × Except Nat Nat := fun c => (c, Except.ok 42)

/-- The reply list of the worker loop over a queue of `Func` commands has one
element per submission. -/
theorem runLoop_funcQueue_length {Conn Resp : Type}
    (closeFn : Conn → Except (Conn × Error) Unit) :
    ∀ (subs : List (Nat × (Conn → Conn × Resp))) (conn : Conn),
      (runLoop closeFn conn (funcQueue subs)).1.length = subs.length
  | [], _ => rfl
  | p :: rest, conn => by
      simp only [funcQueue, List.map_cons, runLoop, List.length_cons]
      have ih := runLoop_funcQueue_length closeFn rest (p.2 conn).1
      simp only [funcQueue] at ih
      omega

/-- The worker loop over a queue of `Func` commands exits by disconnection,
holding the connection produced by running all operations in order. -/
theorem runLoop_funcQueue_exit {Conn Resp : Type}
    (closeFn : Conn → Except (Conn × Error) Unit) :
    ∀ (subs : List (Nat × (Conn → Conn × Resp))) (conn : Conn),
      (runLoop closeFn conn (funcQueue subs)).2
        = ExitKind.disconnected (connAfter conn subs)
  | [], _ => rfl
  | p :: rest, conn => by
      simp only [funcQueue, List.map_cons, runLoop, connAfter, List.foldl_cons]
      have ih := runLoop_funcQueue_exit closeFn rest (p.2 conn).1
      simp only [funcQueue, connAfter] at ih
      exact ih

/-- The `i`-th reply of the worker loop over a queue of `Func` commands is on
the channel of the `i`-th submission and carries the result of running that
submission on the connection left by the previous `i` submissions. -/
theorem runLoop_funcQueue_get {Conn Resp : Type}
    (closeFn : Conn → Except (Conn × Error) Unit) :
    ∀ (subs : List (Nat × (Conn → Conn × Resp))) (conn : Conn) (i : Nat)
      (p : Nat × (Conn → Conn × Resp)), subs.get? i = some p →
      (runLoop closeFn conn (funcQueue subs)).1.get? i
        = some (Reply.funcReply p.1 (p.2 (connAfter conn (subs.take i))).2)
  | [], _, i, _, h => by simp at h
  | q :: rest, conn, 0, p, h => by
      have hq : q = p := by simpa using h
      subst hq
      simp [funcQueue, runLoop, connAfter]
  | q :: rest, conn, i + 1, p, h => by
      have h2 : rest.get? i = some p := by simpa using h
      have ih := runLoop_funcQueue_get closeFn rest (q.2 conn).1 i p h2
      simp only [funcQueue, List.map_cons, runLoop, List.get?_cons_succ,
        List.take_succ_cons, connAfter, List.foldl_cons]
      simp only [funcQueue, connAfter] at ih
      exact ih

/-- Claim C1: operations submitted through one `Client` (or its clones) are
executed by the worker one at a time in submission order. The command queue
is the single crossbeam channel with the worker thread as its single
consumer, embedded as the list of commands in delivery order. The theorem
states that over a queue of `Func` submissions the loop produces exactly one
reply per submission (results correspond 1:1 to submissions), the `i`-th
reply is delivered on the `i`-th submission's own response channel and holds
the result of running that operation on the connection state produced by the
previous submissions in order (exclusive mutable access for the whole
duration, no interleaving), and the final connection is the in-order fold of
all submitted operations. -/
theorem client_ordering {Conn Resp : Type}
    (closeFn : Conn → Except (Conn × Error) Unit) (conn : Conn)
    (subs : List (Nat × (Conn → Conn × Resp))) :
    ((runLoop closeFn conn (funcQueue subs)).1.length = subs.length)
    ∧ (∀ (i : Nat) (p : Nat × (Conn → Conn × Resp)), subs.get? i = some p →
        (runLoop closeFn conn (funcQueue subs)).1.get? i
          = some (Reply.funcReply p.1 (p.2 (connAfter conn (subs.take i))).2))
    ∧ ((runLoop closeFn conn (funcQueue subs)).2
        = ExitKind.disconnected (connAfter conn subs)) :=
  ⟨runLoop_funcQueue_length closeFn subs conn,
   fun i p h => runLoop_funcQueue_get closeFn subs conn i p h,
   runLoop_funcQueue_exit closeFn subs conn⟩

/-- Witness for claim C1 at a concrete queue of two submissions. -/
theorem client_ordering_witness :
    wSubs.get? 1 = some (2, wF2)
    ∧ (runLoop wCloseOk 4 (funcQueue wSubs)).1.get? 1
        = some (Reply.funcReply (2, wF2).1 ((2, wF2).2 (connAfter 4 (wSubs.take 1))).2) :=
  ⟨rfl, (client_ordering wCloseOk 4 wSubs).2.1 1 (2, wF2) rfl⟩

/-- Claim C2: when the worker receives a `Shutdown` command, a successful
`conn.close()` is reported as `Ok` on the shutdown response channel and the
loop terminates without touching the remaining queued commands; a failed
close reports the error on the response channel and the loop continues with
the connection the failed close handed back — `rusqlite::Connection::close`
returns the connection itself on failure, so continuing with it is
continuing with the pre-close connection (third conjunct), and the remaining
commands keep being accepted. -/
theorem shutdown_semantics {Conn Resp : Type}
    (closeFn : Conn → Except (Conn × Error) Unit) (conn : Conn) (ch : Nat)
    (rest : List (Command Conn Resp)) :
    (closeFn conn = Except.ok () →
      runLoop closeFn conn (Command.Shutdown ch :: rest)
        = ([Reply.shutdownReply ch (Except.ok ())], ExitKind.closed))
    ∧ (∀ (c : Conn) (e : Error), closeFn conn = Except.error (c, e) →
      runLoop closeFn conn (Command.Shutdown ch :: rest)
        = (Reply.shutdownReply ch (Except.error e) :: (runLoop closeFn c rest).1,
           (runLoop closeFn c rest).2))
    ∧ (∀ (e : Error), closeFn conn = Except.error (conn, e) →
      runLoop closeFn conn (Command.Shutdown ch :: rest)
        = (Reply.shutdownReply ch (Except.error e) :: (runLoop closeFn conn rest).1,
           (runLoop closeFn conn rest).2)) := by
  refine ⟨fun h => ?_, fun c e h => ?_, fun e h => ?_⟩ <;> simp [runLoop, h]

/-- Witness for claim C2: a successful close terminates the loop dropping a
queued command, and a failed close (SQLITE_BUSY) reports the error and
continues. -/
theorem shutdown_semantics_witness :
    (runLoop wCloseOk 3 [Command.Shutdown 0, Command.Func 1 wF1]
      = ([Reply.shutdownReply 0 (Except.ok ())], ExitKind.closed))
    ∧ (runLoop wCloseBusy 3 ([Command.Shutdown 0] : List (Command Nat Nat))
      = (Reply.shutdownReply 0 (Except.error (Error.Rusqlite 5))
           :: (runLoop wCloseBusy 3 ([] : List (Command Nat Nat))).1,
         (runLoop wCloseBusy 3 ([] : List (Command Nat Nat))).2)) :=
  ⟨(shutdown_semantics wCloseOk 3 0 [Command.Func 1 wF1]).1 rfl,
   (shutdown_semantics wCloseBusy 3 0 []).2.1 3 (Error.Rusqlite 5) rfl⟩

/-- Counterexample to claim C3 as stated: when `conn.close()` fails (here
with SQLITE_BUSY, error code 5), `Client::close` returns (with the error),
the worker stays alive, and a subsequent `conn` submission succeeds with
`Ok 42` — not with `Error::Closed`. So it is not true that after `close()`
returns every subsequent submission fails with `Error::Closed`. -/
theorem close_not_always_closing :
    ((clientClose wCloseBusy (ActorState.mk (some 0))).2
       = Except.error (Error.Rusqlite 5))
    ∧ ((clientConn wEcho (clientClose wCloseBusy (ActorState.mk (some 0))).1).2
       = Except.ok 42)
    ∧ ((Except.ok 42 : Except Error Nat) ≠ Except.error Error.Closed) := by
  decide

/-- Claim C3 amended: after `close()` returns `Ok(())`, every subsequent
`conn`/`conn_mut` submission on the same `Client` (hence on a `Pool` member)
fails with `Error::Closed`, and calling `close()` again is a safe no-op
returning `Ok(())`; in particular `close()` on an already-terminated actor
returns `Ok(())` (the case `alive = none` of `clientClose`). When `close()`
returns an error the worker deliberately stays alive (see the C2 theorem),
so the original unconditional statement holds only for the `Ok` return. -/
theorem close_ok_then_closed {Conn : Type}
    (closeFn : Conn → Except (Conn × Error) Unit) (s : ActorState Conn)
    (h : (clientClose closeFn s).2 = Except.ok ()) :
    ((clientClose closeFn s).1.alive = none)
    ∧ (∀ (T : Type) (f : Conn → Conn × Except Nat T),
        (clientConn f (clientClose closeFn s).1).2 = Except.error Error.Closed)
    ∧ ((clientClose closeFn (clientClose closeFn s).1).2 = Except.ok ()) := by
  have halive : (clientClose closeFn s).1.alive = none := by
    cases hs : s.alive with
    | none => simp [clientClose, hs]
    | some c =>
        cases hc : closeFn c with
        | ok u => simp [clientClose, hs, hc]
        | error ce =>
            exfalso
            simp [clientClose, hs, hc] at h
  have hstep : ∀ (t : ActorState Conn), t.alive = none →
      clientClose closeFn t = (t, Except.ok ()) := by
    intro t ht
    simp [clientClose, ht]
  exact ⟨halive,
    fun T f => by simp [clientConn, halive, errorFromSendError],
    by rw [hstep _ halive]⟩

/-- Witness for the amended claim C3: a concrete successful close, after
which a submission fails with `Error::Closed`. -/
theorem close_ok_then_closed_witness :
    ((clientClose wCloseOk (ActorState.mk (some (0 : Nat)))).2 = Except.ok ())
    ∧ ((clientConn wEcho (clientClose wCloseOk (ActorState.mk (some 0))).1).2
        = Except.error Error.Closed) :=
  ⟨rfl, (close_ok_then_closed wCloseOk (ActorState.mk (some 0)) rfl).2.1 Nat wEcho⟩

/-- Claim C4: submitting an operation through a `Client` whose worker has
terminated (command queue disconnected, `alive = none`) fails immediately:
the failed `conn_tx.send` is mapped by `From<SendError<T>>` to
`Error::Closed`, the same error a reply indicating closure produces (the
`From<oneshot::Canceled>` impl, third conjunct). -/
theorem submit_after_disconnect {Conn : Type} (s : ActorState Conn)
    (h : s.alive = none) (T : Type) (f : Conn → Conn × Except Nat T) :
    ((clientConn f s).2 = Except.error errorFromSendError)
    ∧ errorFromSendError = Error.Closed
    ∧ errorFromCanceled = Error.Closed := by
  refine ⟨?_, rfl, rfl⟩
  simp [clientConn, h]

/-- Witness for claim C4 on a concrete terminated actor. -/
theorem submit_after_disconnect_witness :
    ((ActorState.mk (none : Option Nat)).alive = none)
    ∧ ((clientConn wEcho (ActorState.mk none)).2 = Except.error errorFromSendError) :=
  ⟨rfl, (submit_after_disconnect (ActorState.mk none) rfl Nat wEcho).1⟩

/-- Claim C5: when the connection factory (`Client::create_conn`, for any
builder configuration whose open or pragma step errors) fails during
`Client::open`, the spawned thread invokes the open callback exactly once
with that error and returns before entering the command loop: the open
result delivered to the caller is exactly the factory error (nothing else is
ever sent on the open channel in this branch of the source), no reply is
ever produced for any queued command, the loop has no exit state because it
never runs, and no `Client` handle is exposed. -/
theorem open_failure_no_handle {Conn Resp : Type}
    (openRes : Except Error Conn) (pragmaRes : Except Error String)
    (jm : Option JournalMode) (e : Error)
    (h : createConn openRes pragmaRes jm = Except.error e)
    (closeFn : Conn → Except (Conn × Error) Unit)
    (queue : List (Command Conn Resp)) :
    spawnOpen (createConn openRes pragmaRes jm) closeFn queue
      = (Except.error e, [], none) := by
  simp [spawnOpen, h]

/-- Witness for claim C5: `Connection::open_with_flags` fails with
SQLITE_CANTOPEN (code 14); no handle, no replies and no loop exist. -/
theorem open_failure_no_handle_witness :
    (createConn (Except.error (Error.Rusqlite 14)) (Except.ok "wal")
        (some JournalMode.Wal) = (Except.error (Error.Rusqlite 14) : Except Error Nat))
    ∧ (spawnOpen
        (createConn (Except.error (Error.Rusqlite 14)) (Except.ok "wal")
          (some JournalMode.Wal) : Except Error Nat)
        wCloseOk [Command.Func 0 wF1]
        = (Except.error (Error.Rusqlite 14), [], none)) :=
  ⟨rfl,
   open_failure_no_handle (Except.error (Error.Rusqlite 14)) (Except.ok "wal")
     (some JournalMode.Wal) (Error.Rusqlite 14) rfl wCloseOk [Command.Func 0 wF1]⟩

/-- In a pool with a nonempty client list, `Pool::get` returns a client that
is a member of the list. -/
theorem pool_get_mem (s : PoolState) (h : s.clients ≠ []) :
    ∃ c, (poolGet s).2 = some c ∧ c ∈ s.clients := by
  have hlen : s.clients.length ≠ 0 := by
    simpa [List.length_eq_zero] using h
  have hlt : s.counter % 2 ^ 64 % s.clients.length < s.clients.length :=
    Nat.mod_lt _ (Nat.pos_of_ne_zero hlen)
  refine ⟨s.clients.get ⟨_, hlt⟩, ?_, List.get_mem _ _ _⟩
  simp [poolGet, hlen, List.get?_eq_get hlt]

/-- Counterexample to claim C6 as stated: `Pool::get` does not follow the
spec acquisition algorithm. On a pool whose sole client is id 7, the spec
algorithm (`specPopAcquire`) pops the handle, leaving the idle list empty,
and a second acquisition finds the pool saturated and must wait (`none`).
The source `Pool::get` instead leaves the client list unchanged and
immediately hands the same client to a second caller while the first one
still uses it: there is no popping, no waiter queue and no suspension. -/
theorem pool_get_not_pop :
    ((poolGet (freshPool [7])).1.clients = [7])
    ∧ ((poolGet ((poolGet (freshPool [7])).1)).2 = some 7)
    ∧ ((specPopAcquire (freshPool [7])).1.clients = [])
    ∧ ((specPopAcquire ((specPopAcquire (freshPool [7])).1)).2 = none)
    ∧ (poolGet (freshPool [7]) ≠ specPopAcquire (freshPool [7])) := by
  decide

/-- Claim C6 amended: `Pool::get` is not an acquire/release discipline. For
every pool with a nonempty client list it returns a shared reference to one
of the clients, leaves the client list unchanged (nothing is popped and no
new actor is created), and a second call while the first client is still
checked out immediately returns a member of the same list (no waiter is
enqueued and no caller ever suspends). -/
theorem pool_get_shared (s : PoolState) (h : s.clients ≠ []) :
    ((poolGet s).1.clients = s.clients)
    ∧ (∃ c, (poolGet s).2 = some c ∧ c ∈ s.clients)
    ∧ (∃ c, (poolGet (poolGet s).1).2 = some c ∧ c ∈ s.clients) :=
  ⟨rfl, pool_get_mem s h, pool_get_mem (poolGet s).1 h⟩

/-- Witness for the amended claim C6 on a concrete one-client pool. -/
theorem pool_get_shared_witness :
    ((freshPool [7]).clients ≠ [])
    ∧ ((poolGet (freshPool [7])).1.clients = (freshPool [7]).clients) :=
  ⟨by decide, (pool_get_shared (freshPool [7]) (by decide)).1⟩

/-- Collecting a list of close results yields `Ok` exactly when every result
is `Ok`. -/
theorem collectResults_ok_iff : ∀ (rs : List (Except Error Unit)),
    collectResults rs = Except.ok () ↔ ∀ r ∈ rs, r = Except.ok ()
  | [] => by simp [collectResults]
  | Except.ok u :: rest => by
      cases u
      simp [collectResults, collectResults_ok_iff rest]
  | Except.error e :: rest => by
      simp only [collectResults]
      constructor
      · intro h
        exact absurd h (by simp)
      · intro h
        exact absurd (h (Except.error e) (by simp)) (by simp)

/-- The second component of `Pool::close` is the collection of the
individual close results, in client order. -/
theorem poolClose_snd {Conn : Type} (closeFn : Conn → Except (Conn × Error) Unit)
    (actors : List (ActorState Conn)) :
    (poolClose closeFn actors).2
      = collectResults (actors.map (fun a => (clientClose closeFn a).2)) := by
  simp [poolClose, List.map_map]
  rfl

/-- When `Pool::close` reports an error, it is the error of the first client
whose close failed: every client before it closed successfully. -/
theorem poolClose_error_first {Conn : Type}
    (closeFn : Conn → Except (Conn × Error) Unit) :
    ∀ (actors : List (ActorState Conn)) (e : Error),
      (poolClose closeFn actors).2 = Except.error e →
      ∃ pre a post, actors = pre ++ a :: post
        ∧ (∀ b ∈ pre, (clientClose closeFn b).2 = Except.ok ())
        ∧ (clientClose closeFn a).2 = Except.error e
  | [], e, h => by simp [poolClose, collectResults] at h
  | a :: rest, e, h => by
      rw [poolClose_snd] at h
      cases hc : (clientClose closeFn a).2 with
      | ok u =>
          cases u
          have hrest : (poolClose closeFn rest).2 = Except.error e := by
            rw [poolClose_snd]
            simpa [collectResults, hc] using h
          obtain ⟨pre, b, post, h1, h2, h3⟩ := poolClose_error_first closeFn rest e hrest
          refine ⟨a :: pre, b, post, by simp [h1], ?_, h3⟩
          intro x hx
          rcases List.mem_cons.mp hx with hxa | hxp
          · subst hxa; exact hc
          · exact h2 x hxp
      | error e2 =>
          have he : e2 = e := by
            simp [collectResults, hc] at h
            exact h
          exact ⟨[], a, rest, by simp, by simp, by rw [hc, he]⟩

/-- Counterexample to claim C7 as stated: `Pool::close` does not report close
failures in aggregate. Two pools whose first client close fails with
SQLITE error code 1 and whose second client close fails with two different
errors (codes 2 and 3 respectively) produce the exact same close result,
namely the first error alone — the second failure, although real and
distinct in the two runs, is not observable in the combined result, so the
result cannot be a combined listing of all failures. -/
theorem pool_close_drops_later_failures :
    ((poolClose wFailClose [ActorState.mk (some 1), ActorState.mk (some 2)]).2
       = Except.error (Error.Rusqlite 1))
    ∧ ((poolClose wFailClose [ActorState.mk (some 1), ActorState.mk (some 3)]).2
       = Except.error (Error.Rusqlite 1))
    ∧ ((clientClose wFailClose (ActorState.mk (some 2))).2
       = Except.error (Error.Rusqlite 2))
    ∧ ((clientClose wFailClose (ActorState.mk (some 3))).2
       = Except.error (Error.Rusqlite 3))
    ∧ (Error.Rusqlite 2 ≠ Error.Rusqlite 3) := by
  decide

/-- Claim C7 amended: `Pool::close` issues shutdown to every client
best-effort — each client's close is attempted and its resulting actor state
is independent of the other clients' failures (first conjunct), and the
overall result is `Ok` exactly when every close succeeded (second conjunct).
When it fails, however, the reported error is only the FIRST failing
client's error (every earlier client closed successfully); failures of later
clients are silently discarded rather than aggregated. -/
theorem pool_close_best_effort {Conn : Type}
    (closeFn : Conn → Except (Conn × Error) Unit)
    (actors : List (ActorState Conn)) :
    ((poolClose closeFn actors).1
       = actors.map (fun a => (clientClose closeFn a).1))
    ∧ ((poolClose closeFn actors).2 = Except.ok ()
        ↔ ∀ a ∈ actors, (clientClose closeFn a).2 = Except.ok ())
    ∧ (∀ e, (poolClose closeFn actors).2 = Except.error e →
        ∃ pre a post, actors = pre ++ a :: post
          ∧ (∀ b ∈ pre, (clientClose closeFn b).2 = Except.ok ())
          ∧ (clientClose closeFn a).2 = Except.error e) := by
  refine ⟨?_, ?_, fun e h => poolClose_error_first closeFn actors e h⟩
  · simp [poolClose, List.map_map]
  · rw [poolClose_snd, collectResults_ok_iff]
    constructor
    · intro h a ha
      exact h _ (List.mem_map_of_mem _ ha)
    · intro h r hr
      obtain ⟨a, ha, rfl⟩ := List.mem_map.mp hr
      exact h a ha

/-- Witness for the amended claim C7: in a two-client pool where both closes
fail, the reported error is that of the first client, whose predecessors
(none) all closed fine. -/
theorem pool_close_best_effort_witness :
    ∃ pre a post,
      ([ActorState.mk (some 1), ActorState.mk (some 2)] : List (ActorState Nat))
        = pre ++ a :: post
      ∧ (∀ b ∈ pre, (clientClose wFailClose b).2 = Except.ok ())
      ∧ (clientClose wFailClose a).2 = Except.error (Error.Rusqlite 1) :=
  (pool_close_best_effort wFailClose
    [ActorState.mk (some 1), ActorState.mk (some 2)]).2.2 (Error.Rusqlite 1) rfl

/-- `Pool::get` never changes the client list, so neither does iterating
it. -/
theorem poolGetN_clients (s : PoolState) : ∀ (i : Nat),
    (poolGetN s i).clients = s.clients
  | 0 => rfl
  | i + 1 => poolGetN_clients s i

/-- Starting from a fresh pool, the counter after `i` calls to `Pool::get`
is `i` reduced modulo `2 ^ 64` (the `AtomicU64` wraps). -/
theorem poolGetN_counter (cs : List Nat) : ∀ (i : Nat),
    (poolGetN (freshPool cs) i).counter = i % 2 ^ 64
  | 0 => by simp [poolGetN, freshPool]
  | i + 1 => by
      have ih := poolGetN_counter cs i
      have hmm : i % 2 ^ 64 % 2 ^ 64 = i % 2 ^ 64 := Nat.mod_mod_of_dvd i (dvd_refl _)
      show ((poolGetN (freshPool cs) i).counter % 2 ^ 64 + 1) % 2 ^ 64 = (i + 1) % 2 ^ 64
      rw [ih, hmm, Nat.add_mod i 1,
        Nat.mod_eq_of_lt (show (1 : Nat) < 2 ^ 64 by norm_num)]

/-- The client returned by the `i`-th call to `Pool::get` on a fresh pool is
the one at index `(i mod 2 ^ 64) mod len`: the fetched counter value is `i`
reduced by the 64-bit wrap of the atomic counter. -/
theorem nthGet_fresh (cs : List Nat) (i : Nat) :
    nthGet (freshPool cs) i = cs.get? (i % 2 ^ 64 % cs.length) := by
  have hmm : i % 2 ^ 64 % 2 ^ 64 = i % 2 ^ 64 := Nat.mod_mod_of_dvd i (dvd_refl _)
  have key : ∀ (t : PoolState), t.clients = cs → t.counter = i % 2 ^ 64 →
      (poolGet t).2 = cs.get? (i % 2 ^ 64 % cs.length) := by
    intro t h1 h2
    simp only [poolGet, h1, h2, hmm]
    rcases Nat.eq_zero_or_pos cs.length with h0 | hpos
    · simp [h0, List.length_eq_zero.mp h0]
    · simp [Nat.pos_iff_ne_zero.mp hpos]
  exact key (poolGetN (freshPool cs) i)
    ((poolGetN_clients (freshPool cs) i).trans rfl) (poolGetN_counter cs i)

/-- Counterexample to claim C8 as stated: the `i`-th call to `Pool::get`
does not return the client at index `i mod num_clients` for EVERY `i`. The
`AtomicU64` counter wraps at `2 ^ 64`, so on a fresh three-client pool the
call number `2 ^ 64` fetches counter value 0 and returns client index 0,
while `2 ^ 64 mod 3 = 1`. -/
theorem pool_round_robin_wrap :
    nthGet (freshPool [10, 20, 30]) (2 ^ 64) ≠ [10, 20, 30].get? (2 ^ 64 % 3) := by
  rw [nthGet_fresh]
  decide

/-- Claim C8 amended: pool client selection is deterministic round-robin
modulo the 64-bit counter wrap: the `i`-th call to `Pool::get` (counting
from 0) returns the client at index `(i mod 2 ^ 64) mod num_clients`, which
equals `i mod num_clients` for every `i` below `2 ^ 64`. Every
`conn`/`conn_mut`/`conn_blocking` call on a `Pool` dispatches through
exactly this selection. -/
theorem pool_round_robin (cs : List Nat) (i : Nat) :
    (nthGet (freshPool cs) i = cs.get? (i % 2 ^ 64 % cs.length))
    ∧ (i < 2 ^ 64 → nthGet (freshPool cs) i = cs.get? (i % cs.length)) := by
  refine ⟨nthGet_fresh cs i, fun hlt => ?_⟩
  rw [nthGet_fresh cs i, Nat.mod_eq_of_lt hlt]

/-- Witness for the amended claim C8: the 5th call (index 4) on a fresh
three-client pool returns the client at index `4 mod 3 = 1`. -/
theorem pool_round_robin_witness :
    ((4 : Nat) < 2 ^ 64)
    ∧ (nthGet (freshPool [10, 20, 30]) 4 = [10, 20, 30].get? (4 % 3)) :=
  ⟨by decide, (pool_round_robin [10, 20, 30] 4).2 (by decide)⟩

/-- Counterexample to claim C9 as stated: with `num_conns` explicitly set to
0, `PoolBuilder::get_num_conns` returns 0, `PoolBuilder::open` builds a pool
with an empty client vector, and `Pool::get` evaluates
`counter % clients.len()` with `clients.len() = 0` — a remainder by zero,
which panics in Rust (embedded as the `none` result): the index computation
is not well-defined for that pool. -/
theorem pool_get_zero_conns_panics :
    (getNumConns (some 0) (some 8) = 0)
    ∧ ((freshPool (List.range (getNumConns (some 0) (some 8)))).clients = [])
    ∧ ((poolGet (freshPool (List.range (getNumConns (some 0) (some 8))))).2 = none) := by
  decide

/-- Claim C9 amended: `Pool::get` never panics on every pool whose client
list is nonempty: the index `counter % clients.len()` is then well-defined
and within bounds, so a client is always returned. The client list is
nonempty whenever `num_conns` is left unset (`get_num_conns` falls back to
`available_parallelism`, a `NonZeroUsize`, or to 1) or is explicitly set to
a positive value — but not when `num_conns` is set to 0, which the source
does not guard against. -/
theorem pool_get_in_bounds (numConns availPar : Option Nat)
    (hnc : ∀ n, numConns = some n → 0 < n)
    (hap : ∀ n, availPar = some n → 0 < n) :
    (0 < getNumConns numConns availPar)
    ∧ (∀ (s : PoolState), s.clients.length = getNumConns numConns availPar →
        ∃ c, (poolGet s).2 = some c ∧ c ∈ s.clients) := by
  have hpos : 0 < getNumConns numConns availPar := by
    cases numConns with
    | some n => exact hnc n rfl
    | none =>
        cases availPar with
        | some n => exact hap n rfl
        | none => exact Nat.one_pos
  refine ⟨hpos, fun s hs => pool_get_mem s (fun hnil => ?_)⟩
  rw [hnil] at hs
  simp at hs
  omega

/-- Witness for the amended claim C9 on a two-client pool with
`num_conns = 2`. -/
theorem pool_get_in_bounds_witness :
    ((freshPool [5, 6]).clients.length = getNumConns (some 2) none)
    ∧ (∃ c, (poolGet (freshPool [5, 6])).2 = some c ∧ c ∈ (freshPool [5, 6]).clients) :=
  ⟨rfl,
   (pool_get_in_bounds (some 2) none
     (fun n hn => by have h2 := Option.some.inj hn; omega)
     (fun n hn => Option.noConfusion hn)).2 (freshPool [5, 6]) rfl⟩

/-- Claim C10: when a `journal_mode` is configured on the builder,
`Client::create_conn` sets the pragma and verifies the value the database
reports: if the reported value differs from the requested mode under
case-insensitive ASCII comparison, the open fails with
`Error::PragmaUpdate` carrying the expected and actual values and no
connection is produced; if it matches, the open proceeds with the configured
connection. -/
theorem journal_mode_verified {Conn : Type} (conn : Conn) (m : JournalMode)
    (out : String) :
    (eqIgnoreAsciiCase out m.asStr = false →
      createConn (Except.ok conn) (Except.ok out) (some m)
        = Except.error (Error.PragmaUpdate "journal_mode" m.asStr out))
    ∧ (eqIgnoreAsciiCase out m.asStr = true →
      createConn (Except.ok conn) (Except.ok out) (some m) = Except.ok conn) := by
  constructor <;> intro h <;> simp [createConn, h]

/-- Witness for claim C10: sqlite reports "wal" for a requested WAL mode
(case-insensitive match, open succeeds) and "delete" for a mismatch (open
fails with the expected/actual pair). -/
theorem journal_mode_verified_witness :
    (eqIgnoreAsciiCase "wal" JournalMode.Wal.asStr = true)
    ∧ (createConn (Except.ok (0 : Nat)) (Except.ok "wal") (some JournalMode.Wal)
        = Except.ok 0)
    ∧ (eqIgnoreAsciiCase "delete" JournalMode.Wal.asStr = false)
    ∧ (createConn (Except.ok (0 : Nat)) (Except.ok "delete") (some JournalMode.Wal)
        = Except.error (Error.PragmaUpdate "journal_mode" JournalMode.Wal.asStr "delete")) :=
  ⟨by decide, (journal_mode_verified 0 JournalMode.Wal "wal").2 (by decide),
   by decide, (journal_mode_verified 0 JournalMode.Wal "delete").1 (by decide)⟩

end AsyncSqlite
